import Mathlib

/-!
# Verification of the mcp-smart-notes note system

A shallow embedding of the note store, the tag-classification cascade and the
tool dispatchers of the `spewp/mcp-smart-notes` repository
(`note_server.py`, `smart_tagging_bridge.py`, `simple_note_server.py`,
`ollama_mcp_client.py`), together with theorems settling the behavioural
claims about them.

Modelling conventions:
* Python strings are `List Char`; `str.lower()` is `strLower` (the tag
  vocabulary and all keyword tables are ASCII, where `Char.toLower` agrees
  with Python's `lower`). Python's substring test `a in b` is list
  containment of a contiguous segment, `a <:+: b`.
* The filesystem store (`~/mcp-notes/*.json`) is a list of records in
  enumeration (glob) order. Writing `"{id}.json"` replaces every record with
  that id (`storeWrite`); reading is `findNote`.
* `datetime.now()` readings are `Nat` parameters, one per call site.
* External collaborators are parameters: the remote chat call is a
  `ChatResult`, the `ollama.Client()` construction a `ClientOutcome`, and the
  Python-stdlib `json.loads` a function `Str → Parsed`.
* A raised Python exception is `Except.error` carrying the message; console
  emoji prefixes of result strings are omitted, the informative text is kept.
-/

namespace SmartNotes

/-- Python strings, modelled as lists of characters. -/
abbrev Str := List Char

/-- Python `str.lower()` (ASCII; all vocabulary/keyword data is ASCII). -/
def strLower (s : Str) : Str := s.map Char.toLower

/-- A stored note record (the JSON object persisted as `{id}.json`).
`updated_at` is optional because the `smart_tagging_bridge.create_note`
record carries no `updated_at` key at all; `none` models the absent key.
`auto_tagged` is read with `note.get('auto_tagged', False)`, so the absent
key (note_server records) is modelled as `false`. -/
structure Note where
  id : Str
  title : Str
  content : Str
  tags : List Str
  created_at : Nat
  updated_at : Option Nat
  auto_tagged : Bool
deriving DecidableEq

/-! ## Note store: enumeration and search (note_server.py, smart_tagging_bridge.py) -/

/-- One file in the notes directory: a parseable record, or one whose
contents fail `json.load` with a `JSONDecodeError`. -/
inductive StoredFile
| valid (n : Note)
| corrupt
deriving DecidableEq

/-- The Python message of a NameError on an unbound name. -/
def nameErrMsg (n : Str) : Str :=
  "NameError: name '".toList ++ n ++ "' is not defined".toList

/-- `note_server.list_all_notes` (note_server.py lines 28-38).  The
`except json.JSONDecodeError` handler executes
`print(f"Warning: ...", file=sys.stderr)`, but note_server.py never imports
`sys`, so handling a corrupt file raises `NameError: name 'sys' is not
defined`, which propagates and aborts the whole enumeration. -/
def list_all_notes : List StoredFile → Except Str (List Note)
  | [] => .ok []
  | .valid n :: rest => (list_all_notes rest).map (fun ns => n :: ns)
  | .corrupt :: _ => .error (nameErrMsg "sys".toList)

/-- `simple_note_server.list_all_notes` (simple_note_server.py lines 25-34):
the same loop, but that file does `import sys`, so the corrupt file is
skipped after one warning line on stderr.  Returns the surviving records and
the number of warnings printed. -/
def list_all_notes_simple : List StoredFile → List Note × Nat
  | [] => ([], 0)
  | .valid n :: rest =>
      let r := list_all_notes_simple rest
      (n :: r.1, r.2)
  | .corrupt :: rest =>
      let r := list_all_notes_simple rest
      (r.1, r.2 + 1)

/-- The read loop shared by `smart_tagging_bridge.list_notes` /
`search_notes` / `search_by_tag` (smart_tagging_bridge.py lines 117-123):
a corrupt file hits `continue`, skipping it with no warning. -/
def bridge_read_notes : List StoredFile → List Note
  | [] => []
  | .valid n :: rest => n :: bridge_read_notes rest
  | .corrupt :: rest => bridge_read_notes rest

/-- The match predicate of `note_server.search_notes_by_content`
(note_server.py lines 44-47): query lowered once, tested against the
lowered content, title, and each lowered tag. -/
def matchesQuery (query_lower : Str) (n : Note) : Bool :=
  decide (query_lower <:+: strLower n.content) ||
  decide (query_lower <:+: strLower n.title) ||
  n.tags.any (fun tag => decide (query_lower <:+: strLower tag))

/-- `note_server.search_notes_by_content` (note_server.py lines 40-49),
applied to the already-enumerated list of stored notes. -/
def search_notes_by_content (query : Str) (notes : List Note) : List Note :=
  notes.filter (matchesQuery (strLower query))

/-- The match predicate inside `smart_tagging_bridge.search_notes`
(smart_tagging_bridge.py lines 142-144): same test, title first, lowering
the query at each use. -/
def bridgeMatches (query : Str) (n : Note) : Bool :=
  decide (strLower query <:+: strLower n.title) ||
  decide (strLower query <:+: strLower n.content) ||
  n.tags.any (fun tag => decide (strLower query <:+: strLower tag))

/-! ## Tag classifier (smart_tagging_bridge.analyze_content_for_tags, lines 19-79) -/

/-- The fixed tag vocabulary `AVAILABLE_TAGS` (smart_tagging_bridge.py line 17). -/
def AVAILABLE_TAGS : List Str :=
  ["Greeting".toList, "Coding".toList, "Education".toList, "Finance".toList]

/-- Outcome of the remote completion call `client.chat(...)`: the (stripped)
response text, or a raised exception. -/
inductive ChatResult
| success (text : Str)
| failure
deriving DecidableEq

/-- An element of a parsed JSON array as a Python value: a string, or any
non-string JSON value (which is never `==` to a vocabulary string). -/
inductive JVal
| str (s : Str)
| nonStr
deriving DecidableEq

/-- Outcome of `json.loads(response_text)` (Python stdlib, modelled as an
oracle): a list, some other JSON value, or a `JSONDecodeError`. -/
inductive Parsed
| jsonList (elems : List JVal)
| jsonOther
| jsonError
deriving DecidableEq

/-- The tier-1 list comprehension
`[tag for tag in suggested_tags if tag in AVAILABLE_TAGS]` followed by
`[:3]` (smart_tagging_bridge.py lines 51-52).  A non-string element never
equals a vocabulary string, so it is dropped. -/
def validTagsOf (suggested_tags : List JVal) : List Str :=
  (suggested_tags.filterMap fun v =>
    match v with
    | .str s => if s ∈ AVAILABLE_TAGS then some s else none
    | .nonStr => none).take 3

/-- The tier-2 loop (smart_tagging_bridge.py lines 57-60):
`for tag in AVAILABLE_TAGS: if tag.lower() in response_text.lower():
found_tags.append(tag)`. -/
def textScanLoop : List Str → Str → List Str
  | [], _ => []
  | tag :: rest, txt =>
      if strLower tag <:+: strLower txt then tag :: textScanLoop rest txt
      else textScanLoop rest txt

/-- The curated keyword lists of the offline tier
(smart_tagging_bridge.py lines 70-77). -/
def greetingWords : List Str :=
  ["hello".toList, "hi".toList, "greetings".toList, "welcome".toList,
   "nice to meet".toList]

def codingWords : List Str :=
  ["code".toList, "python".toList, "javascript".toList, "programming".toList,
   "function".toList, "class".toList, "api".toList]

def educationWords : List Str :=
  ["learn".toList, "study".toList, "education".toList, "course".toList,
   "tutorial".toList, "lesson".toList]

def financeWords : List Str :=
  ["money".toList, "budget".toList, "finance".toList, "investment".toList,
   "cost".toList, "price".toList, "bank".toList]

/-- The offline keyword fallback (smart_tagging_bridge.py lines 66-79):
four if-blocks over `(title + " " + content).lower()`, then `[:2]`. -/
def fallbackTags (title content : Str) : List Str :=
  let content_lower := strLower (title ++ " ".toList ++ content)
  let t0 : List Str := []
  let t1 := if greetingWords.any (fun w => decide (w <:+: content_lower))
    then t0 ++ ["Greeting".toList] else t0
  let t2 := if codingWords.any (fun w => decide (w <:+: content_lower))
    then t1 ++ ["Coding".toList] else t1
  let t3 := if educationWords.any (fun w => decide (w <:+: content_lower))
    then t2 ++ ["Education".toList] else t2
  let t4 := if financeWords.any (fun w => decide (w <:+: content_lower))
    then t3 ++ ["Finance".toList] else t3
  t4.take 2

/-- `smart_tagging_bridge.analyze_content_for_tags` (lines 19-79).  The chat
call's outcome and the JSON parser are passed in.  On a successful chat: if
the text parses to a list, tier 1; otherwise (parse error, or a non-list
JSON value, which skips the `isinstance` body) tier 2.  If the chat call
raised, the handler prints a warning and execution continues at the keyword
fallback, tier 3. -/
def analyze_content_for_tags (title content : Str) (chat : ChatResult)
    (parse : Str → Parsed) : List Str :=
  match chat with
  | .success response_text =>
    match parse response_text with
    | .jsonList suggested_tags => validTagsOf suggested_tags
    | _ => (textScanLoop AVAILABLE_TAGS response_text).take 2
  | .failure => fallbackTags title content

/-! Spec-side formulations of the three tiers, written from the spec's words,
to be compared with the source definitions above. -/

/-- Tier 1 as the spec words it: the elements of the model's array that
exactly match a vocabulary entry, in the model's order, truncated to 3. -/
def specTier1 (elems : List JVal) : List Str :=
  ((elems.filter fun v =>
      decide (∃ t ∈ AVAILABLE_TAGS, v = JVal.str t)).map fun v =>
    match v with
    | .str s => s
    | .nonStr => []).take 3

/-- Tier 2 as the spec words it: each vocabulary term found in the raw
response text case-insensitively, in vocabulary order, truncated to 2. -/
def specTier2 (response : Str) : List Str :=
  (AVAILABLE_TAGS.filter fun tag =>
    decide (strLower tag <:+: strLower response)).take 2

/-- The keyword table of the offline tier, keyed by vocabulary tag. -/
def keywordsFor (tag : Str) : List Str :=
  if tag = "Greeting".toList then greetingWords
  else if tag = "Coding".toList then codingWords
  else if tag = "Education".toList then educationWords
  else if tag = "Finance".toList then financeWords
  else []

/-- Tier 3 as the spec words it: a tag is selected when one of its curated
keywords occurs as a substring of the lowercase concatenation of title and
content; tags in vocabulary order; truncated to 2. -/
def specKeywordTier (title content : Str) : List Str :=
  let cl := strLower (title ++ " ".toList ++ content)
  (AVAILABLE_TAGS.filter fun tag =>
    (keywordsFor tag).any fun w => decide (w <:+: cl)).take 2

/-! ## Note creation and update -/

/-- Outcome of constructing `ollama.Client()` inside
`smart_tagging_bridge.create_note`: on failure the surrounding
`except` prints a warning and the tags stay empty. -/
inductive ClientOutcome
| ok (chat : ChatResult)
| initError
deriving DecidableEq

/-- Python truthiness of the `tags` argument (`not tags`): `None` and `[]`
are falsy. -/
def tagsFalsy : Option (List Str) → Bool
  | none => true
  | some l => l.isEmpty

/-- Decimal rendering of a number. -/
def natStr (n : Nat) : Str := (toString n).toList

/-- Python `str` of a list of strings, e.g. `['Coding', 'Finance']`. -/
def pyStrList (xs : List Str) : Str :=
  "[".toList ++
    List.intercalate ", ".toList (xs.map fun x => "'".toList ++ x ++ "'".toList) ++
  "]".toList

/-- The return string of `smart_tagging_bridge.create_note`
(lines 111-112), emoji prefix omitted. -/
def createMsg (title noteId : Str) (final_tags : List Str) : Str :=
  "Created note '".toList ++ title ++ "' with ID: ".toList ++ noteId ++
    (if final_tags.isEmpty then [] else " with tags: ".toList ++ pyStrList final_tags)

/-- `smart_tagging_bridge.create_note` (lines 81-112).  `noteId` is the
clock-derived id, `now` the `datetime.now()` reading for `created_at`.  The
persisted record has no `updated_at` key (`updated_at := none`).  The
classifier runs only when `auto_tag` holds and the tags so far are empty;
a failed `Client()` construction is swallowed, leaving the tags empty. -/
def create_note (title content : Str) (tags : Option (List Str))
    (auto_tag : Bool) (client : ClientOutcome) (parse : Str → Parsed)
    (noteId : Str) (now : Nat) (store : List Note) : Str × List Note :=
  let final_tags0 := tags.getD []
  let final_tags :=
    if auto_tag && final_tags0.isEmpty then
      match client with
      | .ok chat => analyze_content_for_tags title content chat parse
      | .initError => final_tags0
    else final_tags0
  let note : Note :=
    { id := noteId, title := title, content := content, tags := final_tags,
      created_at := now, updated_at := none,
      auto_tagged := auto_tag && tagsFalsy tags }
  (createMsg title noteId final_tags, store ++ [note])

/-- `note_server.handle_create_note` (lines 190-206).  `created_at` and
`updated_at` come from two separate `datetime.now()` calls, `t1` then `t2`.
`tags or []` maps both `None` and `[]` to `[]`.  The record has no
`auto_tagged` key (modelled `false`). -/
def handle_create_note (title content : Str) (tags : Option (List Str))
    (noteId : Str) (t1 t2 : Nat) (store : List Note) : Str × List Note :=
  let note : Note :=
    { id := noteId, title := title, content := content,
      tags := tags.getD [], created_at := t1, updated_at := some t2,
      auto_tagged := false }
  ("Note created successfully!\nID: ".toList ++ noteId ++
     "\nTitle: ".toList ++ title,
   store ++ [note])

/-- Reading `{noteId}.json` from the store. -/
def findNote (store : List Note) (noteId : Str) : Option Note :=
  store.find? fun n => decide (n.id = noteId)

/-- Writing a record: the file named by its id is replaced. -/
def storeWrite (store : List Note) (n : Note) : List Note :=
  store.map fun m => if m.id = n.id then n else m

/-- `note_server.update_note` (lines 228-259).  Each field present in the
request overwrites the stored field and is appended to `updates`; if
`updates` is non-empty, `updated_at` is set to the fresh reading `t` and the
record is rewritten, else the store is untouched and the "no updates"
message is returned. -/
def update_note (store : List Note) (noteId : Str) (title content : Option Str)
    (tags : Option (List Str)) (t : Nat) : Str × List Note :=
  match findNote store noteId with
  | none => ("Note ".toList ++ noteId ++ " not found".toList, store)
  | some note =>
    let s1 := match title with
      | some v => ({ note with title := v }, ["title".toList])
      | none => (note, [])
    let s2 := match content with
      | some v => ({ s1.1 with content := v }, s1.2 ++ ["content".toList])
      | none => s1
    let s3 := match tags with
      | some v => ({ s2.1 with tags := v }, s2.2 ++ ["tags".toList])
      | none => s2
    if s3.2.isEmpty then ("No updates provided".toList, store)
    else
      ("Note ".toList ++ noteId ++ " updated successfully!\nUpdated: ".toList ++
         List.intercalate ", ".toList s3.2,
       storeWrite store { s3.1 with updated_at := some t })

/-! ## Bridge tool renderers and the two dispatchers -/

/-- `smart_tagging_bridge.list_notes` (lines 114-133): all readable notes,
newest `created_at` first (Python `sorted(..., reverse=True)` is stable),
rendered one line each (emoji indicator omitted, tag suffix kept). -/
def list_notes (files : List StoredFile) : Str :=
  let notes := bridge_read_notes files
  if notes.isEmpty then "No notes found.".toList
  else
    "Found ".toList ++ natStr notes.length ++ " notes:\n".toList ++
    ((notes.mergeSort fun a b => decide (b.created_at ≤ a.created_at)).flatMap
      fun n =>
        "  - ".toList ++ n.title ++ " (ID: ".toList ++ n.id ++ ")".toList ++
        (if n.tags.isEmpty then []
         else " | Tags: ".toList ++ List.intercalate ", ".toList n.tags) ++
        "\n".toList)

/-- `smart_tagging_bridge.search_notes` (lines 135-157): the readable notes
matching the query, in enumeration order, with a 50-character content
preview per line. -/
def search_notes (query : Str) (files : List StoredFile) : Str :=
  let notes := (bridge_read_notes files).filter (bridgeMatches query)
  if notes.isEmpty then
    "No notes found matching '".toList ++ query ++ "'".toList
  else
    "Found ".toList ++ natStr notes.length ++ " note(s) matching '".toList ++
      query ++ "':\n".toList ++
    (notes.flatMap fun n =>
      "  - ".toList ++ n.title ++ ": ".toList ++ n.content.take 50 ++
      "...".toList ++ "\n".toList)

/-- `smart_tagging_bridge.search_by_tag` (lines 159-180): exact membership
of `tag` in each note's `tags`, newest first. -/
def search_by_tag (tag : Str) (files : List StoredFile) : Str :=
  let notes := (bridge_read_notes files).filter fun n => decide (tag ∈ n.tags)
  if notes.isEmpty then
    "No notes found with tag '".toList ++ tag ++ "'".toList
  else
    "Found ".toList ++ natStr notes.length ++ " note(s) with tag '".toList ++
      tag ++ "':\n".toList ++
    ((notes.mergeSort fun a b => decide (b.created_at ≤ a.created_at)).flatMap
      fun n =>
        "  - ".toList ++ n.title ++ " (ID: ".toList ++ n.id ++ ")\n".toList ++
        "    Tags: ".toList ++ List.intercalate ", ".toList n.tags ++
        "\n    Content preview: ".toList ++ n.content.take 50 ++ "...\n\n".toList)

/-- The `arguments` mapping handed to a dispatcher: each key the tools use,
present or absent. -/
structure ToolArgs where
  title : Option Str := none
  content : Option Str := none
  tags : Option (List Str) := none
  auto_tag : Option Bool := none
  query : Option Str := none
  tag : Option Str := none
deriving DecidableEq

/-- `smart_tagging_bridge.execute_tool` (lines 250-266).  Known names invoke
the matching operation (`arguments.get` supplying the defaults shown in the
source); any other name returns the `Unknown tool` text.  The store travels
alongside the textual result; only `create_note` changes it. -/
def execute_tool (tool_name : Str) (args : ToolArgs) (client : ClientOutcome)
    (parse : Str → Parsed) (noteId : Str) (now : Nat) (store : List Note)
    (files : List StoredFile) : Str × List Note :=
  if tool_name = "create_note".toList then
    create_note (args.title.getD []) (args.content.getD []) args.tags
      (args.auto_tag.getD true) client parse noteId now store
  else if tool_name = "list_notes".toList then (list_notes files, store)
  else if tool_name = "search_notes".toList then
    (search_notes (args.query.getD []) files, store)
  else if tool_name = "search_by_tag".toList then
    (search_by_tag (args.tag.getD []) files, store)
  else ("Unknown tool: ".toList ++ tool_name, store)

/-- `note_server.call_tool` (lines 171-187), with raising modelled as
`Except.error`.  The create branch calls `handle_create_note(**arguments)`
(a missing required argument would raise `TypeError`).  The other five
branches reference `handle_search_notes`, `handle_list_recent_notes`,
`handle_get_note`, `handle_update_note` and `handle_delete_note` — names
never defined in note_server.py (the implementations are bound as
`search_notes`, `list_recent_notes`, ...), so executing those branches
raises `NameError`.  The final branch raises
`ValueError(f"Unknown tool: {name}")`. -/
def call_tool (name : Str) (args : ToolArgs) (noteId : Str) (t1 t2 : Nat)
    (store : List Note) : Except Str (Str × List Note) :=
  if name = "create_note".toList then
    match args.title, args.content with
    | some title, some content =>
        .ok (handle_create_note title content args.tags noteId t1 t2 store)
    | _, _ =>
        .error "TypeError: handle_create_note() missing required argument".toList
  else if name = "search_notes".toList then
    .error (nameErrMsg "handle_search_notes".toList)
  else if name = "list_recent_notes".toList then
    .error (nameErrMsg "handle_list_recent_notes".toList)
  else if name = "get_note".toList then
    .error (nameErrMsg "handle_get_note".toList)
  else if name = "update_note".toList then
    .error (nameErrMsg "handle_update_note".toList)
  else if name = "delete_note".toList then
    .error (nameErrMsg "handle_delete_note".toList)
  else .error ("Unknown tool: ".toList ++ name)

/-- The names registered with the bridge dispatcher (`AVAILABLE_TOOLS`,
smart_tagging_bridge.py lines 183-248). -/
def bridgeToolNames : List Str :=
  ["create_note".toList, "list_notes".toList, "search_notes".toList,
   "search_by_tag".toList]

/-- The names `note_server.call_tool` dispatches on. -/
def serverToolNames : List Str :=
  ["create_note".toList, "search_notes".toList, "list_recent_notes".toList,
   "get_note".toList, "update_note".toList, "delete_note".toList]

/-- The boundary contract the spec states for `dispatch`: a textual result
is returned (not a raised error). -/
def dispatchReturnsText (r : Except Str (Str × List Note)) : Prop :=
  ∃ v, r = Except.ok v

/-! ## Schema translation (ollama_mcp_client.tools_to_ollama_format) -/

/-- One entry of a `properties` mapping: the declared JSON-schema type, the
element type when the parameter is array-typed, the description, and the
default value when one is declared. -/
structure ParamSpec where
  ptype : Str
  items : Option Str := none
  description : Str := []
  defaultVal : Option Nat := none
deriving DecidableEq

/-- The runtime value held in `tool.inputSchema`.  In the MCP Python SDK,
`Tool.inputSchema` is a plain `dict` (note_server.py builds it from dict
literals, and the client-side pydantic model types it `dict[str, Any]`):
`dictSchema`.  `objSchema` is the attribute-style object the conversion
code probes for. -/
inductive SchemaVal
| dictSchema (properties : List (Str × ParamSpec)) (required : List Str)
| objSchema (properties : List (Str × ParamSpec)) (required : List Str)
deriving DecidableEq

/-- `hasattr(s, 'properties')`: false on a dict (item access, not an
attribute), true on an attribute-style object. -/
def hasattrProperties : SchemaVal → Bool
  | .dictSchema _ _ => false
  | .objSchema _ _ => true

/-- The `required` list carried by a schema value, however represented
(a spec-side accessor, used to state what the translation should keep). -/
def schemaRequired : SchemaVal → List Str
  | .dictSchema _ r => r
  | .objSchema _ r => r

/-- The `properties` mapping carried by a schema value (spec-side accessor). -/
def schemaProperties : SchemaVal → List (Str × ParamSpec)
  | .dictSchema p _ => p
  | .objSchema p _ => p

/-- A tool descriptor as the MCP client receives it. -/
structure MCPTool where
  name : Str
  description : Option Str
  inputSchema : SchemaVal
deriving DecidableEq

/-- The `parameters` member of the produced Ollama function: the initial
`parameters = {}`, or the populated object shape. -/
inductive OllamaParameters
| empty
| objectParams (properties : List (Str × ParamSpec)) (required : List Str)
deriving DecidableEq

/-- One entry of the produced Ollama tool list. -/
structure OllamaFunction where
  name : Str
  description : Str
  parameters : OllamaParameters
deriving DecidableEq

/-- `ollama_mcp_client.tools_to_ollama_format` (lines 53-74).  `parameters`
starts as `{}` and is filled only under `hasattr(tool.inputSchema,
'properties')` — which a dict never satisfies, so for SDK tools the guard
is dead and `parameters` stays `{}`. -/
def tools_to_ollama_format (tools : List MCPTool) : List OllamaFunction :=
  tools.map fun tool =>
    let parameters : OllamaParameters :=
      match tool.inputSchema with
      | .objSchema props req => .objectParams props req
      | .dictSchema _ _ => .empty
    { name := tool.name,
      description := tool.description.getD ("Tool: ".toList ++ tool.name),
      parameters := parameters }

/-- The six tool descriptors `note_server.list_tools` returns
(note_server.py lines 87-169).  Every `inputSchema` is a dict literal. -/
def note_server_tools : List MCPTool :=
  [{ name := "create_note".toList,
     description := some "Create a new note with title, content, and optional tags".toList,
     inputSchema := .dictSchema
       [("title".toList, { ptype := "string".toList, description := "Note title".toList }),
        ("content".toList, { ptype := "string".toList, description := "Note content".toList }),
        ("tags".toList, { ptype := "array".toList, items := some "string".toList,
                          description := "Optional tags for the note".toList })]
       ["title".toList, "content".toList] },
   { name := "search_notes".toList,
     description := some "Search notes by content, title, or tags".toList,
     inputSchema := .dictSchema
       [("query".toList, { ptype := "string".toList, description := "Search query".toList })]
       ["query".toList] },
   { name := "list_recent_notes".toList,
     description := some "List the most recent notes".toList,
     inputSchema := .dictSchema
       [("limit".toList, { ptype := "integer".toList,
                           description := "Maximum number of notes to return".toList,
                           defaultVal := some 10 })]
       [] },
   { name := "get_note".toList,
     description := some "Get the full content of a specific note".toList,
     inputSchema := .dictSchema
       [("note_id".toList, { ptype := "string".toList, description := "Note ID".toList })]
       ["note_id".toList] },
   { name := "update_note".toList,
     description := some "Update an existing note's title, content, or tags".toList,
     inputSchema := .dictSchema
       [("note_id".toList, { ptype := "string".toList, description := "Note ID".toList }),
        ("title".toList, { ptype := "string".toList, description := "New title".toList }),
        ("content".toList, { ptype := "string".toList, description := "New content".toList }),
        ("tags".toList, { ptype := "array".toList, items := some "string".toList,
                          description := "New tags".toList })]
       ["note_id".toList] },
   { name := "delete_note".toList,
     description := some "Delete a note by ID".toList,
     inputSchema := .dictSchema
       [("note_id".toList, { ptype := "string".toList, description := "Note ID".toList })]
       ["note_id".toList] }]

/-- The timestamp property claimed of every record: an `updated_at` key is
present and at least `created_at`. -/
def hasBothTimestamps (n : Note) : Prop :=
  ∃ u, n.updated_at = some u ∧ n.created_at ≤ u

/-- A concrete stored record used by counterexamples and witnesses. -/
def sampleNote : Note :=
  { id := "1".toList, title := "a".toList, content := "b".toList,
    tags := [], created_at := 0, updated_at := some 0, auto_tagged := false }

/-- A second concrete stored record used by witnesses. -/
def note9 : Note :=
  { id := "9".toList, title := "a".toList, content := "b".toList,
    tags := [], created_at := 2, updated_at := some 3, auto_tagged := false }

end SmartNotes

namespace SmartNotes

/-- C1: membership in the search result is equivalent to the case-insensitive
substring condition on title, content or some tag; and the bridge variant's
match predicate agrees with the server's. -/
theorem search_returns_iff_substring (q : Str) (notes : List Note) (n : Note) :
    (n ∈ search_notes_by_content q notes ↔
      n ∈ notes ∧ (strLower q <:+: strLower n.title ∨
        strLower q <:+: strLower n.content ∨
        ∃ t ∈ n.tags, strLower q <:+: strLower t)) ∧
    bridgeMatches q n = matchesQuery (strLower q) n := by
  constructor
  · rw [search_notes_by_content, List.mem_filter, matchesQuery]
    simp only [Bool.or_eq_true, decide_eq_true_eq, List.any_eq_true]
    tauto
  · rw [Bool.eq_iff_iff, bridgeMatches, matchesQuery]
    simp only [Bool.or_eq_true, decide_eq_true_eq, List.any_eq_true]
    tauto

/-- The tier-1 comprehension keeps exactly the array elements matching a
vocabulary entry, in the array's order. -/
theorem validTagsOf_eq_specTier1 (elems : List JVal) :
    validTagsOf elems = specTier1 elems := by
  rw [validTagsOf, specTier1]
  congr 1
  induction elems with
  | nil => rfl
  | cons v rest ih =>
    cases v with
    | str s =>
      by_cases h : s ∈ AVAILABLE_TAGS
      · simp [List.filterMap_cons, List.filter_cons, h, ih]
      · simp [List.filterMap_cons, List.filter_cons, h, ih]
    | nonStr => simp [List.filterMap_cons, List.filter_cons, ih]

/-- The tier-2 loop collects exactly the vocabulary entries found in the
text, in vocabulary order. -/
theorem textScanLoop_eq_filter (vocab : List Str) (txt : Str) :
    textScanLoop vocab txt =
      vocab.filter fun tag => decide (strLower tag <:+: strLower txt) := by
  induction vocab with
  | nil => rfl
  | cons tag rest ih =>
    rw [textScanLoop, List.filter_cons]
    by_cases h : strLower tag <:+: strLower txt
    · simp [h, ih]
    · simp [h, ih]

/-- The offline fallback's four if-blocks compute the keyword-table filter
over the vocabulary in vocabulary order. -/
theorem fallbackTags_eq_specKeywordTier (title content : Str) :
    fallbackTags title content = specKeywordTier title content := by
  have hG : keywordsFor ("Greeting".toList) = greetingWords := rfl
  have hC : keywordsFor ("Coding".toList) = codingWords := rfl
  have hE : keywordsFor ("Education".toList) = educationWords := rfl
  have hF : keywordsFor ("Finance".toList) = financeWords := rfl
  rw [fallbackTags, specKeywordTier]
  simp only [AVAILABLE_TAGS, List.filter_cons, List.filter_nil, hG, hC, hE, hF]
  split_ifs <;> rfl

/-- C2: when the model's full response text parses as a JSON array, the
classifier returns exactly the array elements that match a vocabulary
entry, in the model's order, truncated to 3. -/
theorem json_array_response_filtered (title content txt : Str)
    (parse : Str → Parsed) (elems : List JVal)
    (h : parse txt = Parsed.jsonList elems) :
    analyze_content_for_tags title content (ChatResult.success txt) parse
      = specTier1 elems := by
  simp only [analyze_content_for_tags, h]
  exact validTagsOf_eq_specTier1 elems

/-- Witness for C2 at the spec's own example: the model answers
`["Finance", "Bogus"]` and the result is `["Finance"]`. -/
theorem json_array_response_filtered_witness :
    analyze_content_for_tags [] [] (ChatResult.success ("x".toList))
        (fun _ => Parsed.jsonList [JVal.str "Finance".toList, JVal.str "Bogus".toList])
      = specTier1 [JVal.str "Finance".toList, JVal.str "Bogus".toList] ∧
    specTier1 [JVal.str "Finance".toList, JVal.str "Bogus".toList]
      = ["Finance".toList] :=
  ⟨json_array_response_filtered [] [] ("x".toList) _ _ rfl, by decide⟩

/-- C8: when the response text fails strict JSON parsing, the classifier
scans the response case-insensitively for each vocabulary term in
vocabulary order and truncates to 2. -/
theorem non_json_response_text_scan (title content txt : Str)
    (parse : Str → Parsed) (h : parse txt = Parsed.jsonError) :
    analyze_content_for_tags title content (ChatResult.success txt) parse
        = specTier2 txt ∧
    (analyze_content_for_tags title content (ChatResult.success txt) parse).length ≤ 2 := by
  have h1 : analyze_content_for_tags title content (ChatResult.success txt) parse
      = specTier2 txt := by
    simp only [analyze_content_for_tags, h, specTier2]
    rw [textScanLoop_eq_filter]
  refine ⟨h1, ?_⟩
  rw [h1, specTier2, List.length_take]
  exact Nat.min_le_left _ _

/-- Witness for C8 at the spec's example: a conversational reply naming
Coding and Education yields `["Coding", "Education"]`. -/
theorem non_json_response_text_scan_witness :
    analyze_content_for_tags [] []
        (ChatResult.success "Id say Coding and Education".toList)
        (fun _ => Parsed.jsonError)
      = specTier2 ("Id say Coding and Education".toList) ∧
    specTier2 ("Id say Coding and Education".toList)
      = ["Coding".toList, "Education".toList] :=
  ⟨(non_json_response_text_scan [] [] _ _ rfl).1, by decide⟩

/-- C3: when the remote completion call itself errors, the classifier
returns the offline keyword tier — tags whose curated keywords occur in the
lowercase concatenation of title and content, in vocabulary order, at most
2 — and note creation still succeeds and persists the note with those tags. -/
theorem chat_failure_keyword_fallback (title content : Str)
    (parse : Str → Parsed) (noteId : Str) (now : Nat) (store : List Note) :
    analyze_content_for_tags title content ChatResult.failure parse
        = specKeywordTier title content ∧
    (analyze_content_for_tags title content ChatResult.failure parse).length ≤ 2 ∧
    create_note title content none true (ClientOutcome.ok ChatResult.failure)
        parse noteId now store
      = (createMsg title noteId (specKeywordTier title content),
         store ++ [{ id := noteId, title := title, content := content,
                     tags := specKeywordTier title content, created_at := now,
                     updated_at := none, auto_tagged := true }]) := by
  have h1 : analyze_content_for_tags title content ChatResult.failure parse
      = specKeywordTier title content := fallbackTags_eq_specKeywordTier title content
  refine ⟨h1, ?_, ?_⟩
  · rw [h1, specKeywordTier, List.length_take]
    exact Nat.min_le_left _ _
  · simp only [create_note, Option.getD, List.isEmpty_nil, Bool.and_self, h1,
      tagsFalsy, if_true]

/-- C10: with auto_tag enabled, an explicitly supplied empty tags list is
indistinguishable from omitting tags: the classifier still runs, its output
becomes the note's tags, and auto_tagged is recorded true. -/
theorem empty_tags_list_still_auto_tags (title content : Str)
    (client : ClientOutcome) (chat : ChatResult) (parse : Str → Parsed)
    (noteId : Str) (now : Nat) (store : List Note) :
    create_note title content (some []) true client parse noteId now store
      = create_note title content none true client parse noteId now store ∧
    (create_note title content (some []) true (ClientOutcome.ok chat) parse
        noteId now store).2
      = store ++ [{ id := noteId, title := title, content := content,
                    tags := analyze_content_for_tags title content chat parse,
                    created_at := now, updated_at := none,
                    auto_tagged := true }] :=
  ⟨rfl, rfl⟩

/-- A write keyed on the id found by `findNote` is seen by the next
`findNote` on the same id. -/
theorem findNote_storeWrite (store : List Note) (noteId : Str) (n nw : Note)
    (h : findNote store noteId = some n) (hid : nw.id = noteId) :
    findNote (storeWrite store nw) noteId = some nw := by
  induction store with
  | nil => simp [findNote] at h
  | cons m rest ih =>
    by_cases hm : m.id = noteId
    · simp [findNote, storeWrite, List.find?, hm, hid]
    · have hne : ¬ m.id = nw.id := by rw [hid]; exact hm
      have h' : findNote rest noteId = some n := by
        simpa [findNote, List.find?, hm] using h
      simpa [findNote, storeWrite, List.find?, hne, hm] using ih h'

/-- When at least one field is present, update_note rewrites the found
record: present fields overwritten, absent fields kept, updated_at set to
the fresh reading. -/
theorem update_note_found (store : List Note) (noteId : Str) (n : Note)
    (t : Nat) (title content : Option Str) (tags : Option (List Str))
    (h : findNote store noteId = some n)
    (hp : title.isSome ∨ content.isSome ∨ tags.isSome) :
    findNote (update_note store noteId title content tags t).2 noteId
      = some { id := n.id, title := title.getD n.title,
               content := content.getD n.content, tags := tags.getD n.tags,
               created_at := n.created_at, updated_at := some t,
               auto_tagged := n.auto_tagged } := by
  have hid : n.id = noteId := by
    have := List.find?_some h
    simpa using this
  rcases title with _ | tv <;> rcases content with _ | cv <;>
    rcases tags with _ | gv
  · simp at hp
  all_goals
    simp only [update_note, h, List.isEmpty_cons, List.isEmpty_nil,
      List.append_nil, Option.getD_some, Option.getD_none]
    exact findNote_storeWrite store noteId n _ h hid

/-- C5 counterexample: an update request whose only present field carries
the already-stored value changes no stored field value, yet updated_at is
refreshed. -/
theorem update_refreshes_updated_at_without_change :
    (update_note [sampleNote] ("1".toList) (some "a".toList) none none 5).2
      = [{ sampleNote with updated_at := some 5 }] ∧
    ({ sampleNote with updated_at := some 5 }).title = sampleNote.title ∧
    ({ sampleNote with updated_at := some 5 }).content = sampleNote.content ∧
    ({ sampleNote with updated_at := some 5 }).tags = sampleNote.tags ∧
    ({ sampleNote with updated_at := some 5 }).updated_at ≠ sampleNote.updated_at := by
  refine ⟨?_, rfl, rfl, rfl, by decide⟩
  decide

/-- C5 (amended): updated_at is refreshed iff at least one field is present
in the request (even when the supplied value equals the stored one); a
request with no fields is a no-op that succeeds with the "no updates"
message and leaves the store untouched. -/
theorem update_note_refresh_on_presence (store : List Note) (noteId : Str)
    (n : Note) (t : Nat) (title content : Option Str) (tags : Option (List Str))
    (h : findNote store noteId = some n) :
    update_note store noteId none none none t
      = ("No updates provided".toList, store) ∧
    (title.isSome ∨ content.isSome ∨ tags.isSome →
      findNote (update_note store noteId title content tags t).2 noteId
        = some { id := n.id, title := title.getD n.title,
                 content := content.getD n.content, tags := tags.getD n.tags,
                 created_at := n.created_at, updated_at := some t,
                 auto_tagged := n.auto_tagged }) :=
  ⟨by simp [update_note, h],
   fun hp => update_note_found store noteId n t title content tags h hp⟩

/-- Witness for C5 at a concrete store: the empty request is a no-op and a
title-only request rewrites the record with a fresh updated_at. -/
theorem update_note_refresh_on_presence_witness :
    update_note [sampleNote] ("1".toList) none none none 5
      = ("No updates provided".toList, [sampleNote]) ∧
    findNote (update_note [sampleNote] ("1".toList) (some "x".toList) none none 5).2
        ("1".toList)
      = some { id := sampleNote.id, title := "x".toList,
               content := sampleNote.content, tags := sampleNote.tags,
               created_at := sampleNote.created_at, updated_at := some 5,
               auto_tagged := sampleNote.auto_tagged } :=
  ⟨(update_note_refresh_on_presence [sampleNote] ("1".toList) sampleNote 5
      (some "x".toList) none none (by decide)).1,
   by
     have := (update_note_refresh_on_presence [sampleNote] ("1".toList) sampleNote 5
       (some "x".toList) none none (by decide)).2 (Or.inl rfl)
     simpa using this⟩

/-- C9 counterexample: the bridge's create persists a record with no
updated_at key at all, and note_server's create persists two distinct
timestamps when the two clock reads differ, so "both present and set
equal at creation" fails. -/
theorem create_record_timestamps_cex :
    (∃ n : Note,
      (create_note ("t".toList) ("c".toList) none false ClientOutcome.initError
          (fun _ => Parsed.jsonError) ("1".toList) 7 []).2 = [n] ∧
      n.updated_at = none ∧ ¬ hasBothTimestamps n) ∧
    (∃ m : Note,
      (handle_create_note ("t".toList) ("c".toList) none ("1".toList) 3 4 []).2
        = [m] ∧
      m.updated_at ≠ some m.created_at) := by
  constructor
  · refine ⟨_, rfl, rfl, ?_⟩
    rintro ⟨u, hu, -⟩
    simp at hu
  · exact ⟨_, rfl, by decide⟩

/-- C9 (amended): note_server's create takes created_at and updated_at from
two consecutive clock reads, so updated_at ≥ created_at holds whenever the
clock is monotone (not necessarily equal); update preserves the property
when invoked at a time past the record's creation; the bridge's create
stores no updated_at at all. -/
theorem note_server_timestamp_invariant :
    (∀ (title content : Str) (tags : Option (List Str)) (noteId : Str)
        (t1 t2 : Nat) (store : List Note), t1 ≤ t2 →
      (handle_create_note title content tags noteId t1 t2 store).2
        = store ++ [{ id := noteId, title := title, content := content,
                      tags := tags.getD [], created_at := t1,
                      updated_at := some t2, auto_tagged := false }] ∧
      hasBothTimestamps
        { id := noteId, title := title, content := content,
          tags := tags.getD [], created_at := t1, updated_at := some t2,
          auto_tagged := false }) ∧
    (∀ (store : List Note) (noteId : Str) (n : Note) (title content : Option Str)
        (tags : Option (List Str)) (t : Nat) (n' : Note),
      findNote store noteId = some n → n.created_at ≤ t →
      findNote (update_note store noteId title content tags t).2 noteId = some n' →
      hasBothTimestamps n → hasBothTimestamps n') := by
  constructor
  · intro title content tags noteId t1 t2 store h12
    exact ⟨rfl, t2, rfl, h12⟩
  · intro store noteId n title content tags t n' h hct h' hb
    by_cases hp : title.isSome ∨ content.isSome ∨ tags.isSome
    · have hw := update_note_found store noteId n t title content tags h hp
      rw [hw] at h'
      injection h' with h''
      rw [← h'']
      exact ⟨t, rfl, hct⟩
    · -- no field present: the store is untouched and n' = n
      have ht : title = none := by
        cases title
        · rfl
        · exact absurd (Or.inl rfl) hp
      have hc : content = none := by
        cases content
        · rfl
        · exact absurd (Or.inr (Or.inl rfl)) hp
      have hg : tags = none := by
        cases tags
        · rfl
        · exact absurd (Or.inr (Or.inr rfl)) hp
      subst ht hc hg
      rw [update_note, h] at h'
      simp only [List.isEmpty_nil, if_true] at h'
      rw [h] at h'
      injection h' with h''
      rw [← h'']
      exact hb

/-- Witness for C9 at concrete clock reads 3 ≤ 5 (creation) and a concrete
title update at time 10 of a record created at 2. -/
theorem note_server_timestamp_invariant_witness :
    hasBothTimestamps
      { id := "1".toList, title := "t".toList, content := "c".toList,
        tags := [], created_at := 3, updated_at := some 5,
        auto_tagged := false } ∧
    hasBothTimestamps { note9 with title := "z".toList, updated_at := some 10 } :=
  ⟨(note_server_timestamp_invariant.1 ("t".toList) ("c".toList) none
      ("1".toList) 3 5 [] (by decide)).2,
   note_server_timestamp_invariant.2 [note9] ("9".toList) note9
     (some "z".toList) none none 10 _ (by decide) (by decide) (by decide)
     ⟨3, rfl, by decide⟩⟩

/-- C4 counterexample: dispatching an unregistered name through
note_server.call_tool raises ValueError rather than returning a textual
result. -/
theorem call_tool_unknown_raises :
    call_tool ("nonexistent_tool".toList) {} ("1".toList) 0 0 []
      = Except.error ("Unknown tool: nonexistent_tool".toList) ∧
    ¬ dispatchReturnsText (call_tool ("nonexistent_tool".toList) {} ("1".toList) 0 0 []) := by
  have h : call_tool ("nonexistent_tool".toList) {} ("1".toList) 0 0 []
      = Except.error ("Unknown tool: nonexistent_tool".toList) := rfl
  refine ⟨h, ?_⟩
  rintro ⟨v, hv⟩
  rw [h] at hv
  exact Except.noConfusion hv

/-- C4 (amended): the bridge dispatcher execute_tool returns an
"Unknown tool: name" text (containing the unknown-tool indication) for any
unregistered name, while note_server's call_tool raises ValueError with
that message. -/
theorem unknown_tool_dispatch (name : Str) (args : ToolArgs)
    (client : ClientOutcome) (parse : Str → Parsed) (noteId : Str)
    (now t1 t2 : Nat) (store : List Note) (files : List StoredFile)
    (hb : name ∉ bridgeToolNames) (hs : name ∉ serverToolNames) :
    execute_tool name args client parse noteId now store files
      = ("Unknown tool: ".toList ++ name, store) ∧
    ("Unknown tool".toList <:+:
      (execute_tool name args client parse noteId now store files).1) ∧
    call_tool name args noteId t1 t2 store
      = Except.error ("Unknown tool: ".toList ++ name) := by
  simp only [bridgeToolNames, List.mem_cons, List.not_mem_nil, or_false,
    not_or] at hb
  simp only [serverToolNames, List.mem_cons, List.not_mem_nil, or_false,
    not_or] at hs
  obtain ⟨b1, b2, b3, b4⟩ := hb
  obtain ⟨s1, s2, s3, s4, s5, s6⟩ := hs
  have he : execute_tool name args client parse noteId now store files
      = ("Unknown tool: ".toList ++ name, store) := by
    rw [execute_tool, if_neg b1, if_neg b2, if_neg b3, if_neg b4]
  refine ⟨he, ?_, ?_⟩
  · rw [he]
    have hsplit : ("Unknown tool: ".toList : Str)
        = "Unknown tool".toList ++ ": ".toList := by decide
    rw [hsplit, List.append_assoc]
    exact (List.prefix_append _ _).isInfix
  · rw [call_tool, if_neg s1, if_neg s2, if_neg s3, if_neg s4, if_neg s5,
      if_neg s6]

/-- Witness for C4 at the concrete unregistered name "bogus_tool". -/
theorem unknown_tool_dispatch_witness :
    execute_tool ("bogus_tool".toList) {} ClientOutcome.initError
        (fun _ => Parsed.jsonError) ("1".toList) 0 [] []
      = ("Unknown tool: ".toList ++ "bogus_tool".toList, []) ∧
    call_tool ("bogus_tool".toList) {} ("1".toList) 0 0 []
      = Except.error ("Unknown tool: ".toList ++ "bogus_tool".toList) :=
  ⟨(unknown_tool_dispatch ("bogus_tool".toList) {} ClientOutcome.initError
      (fun _ => Parsed.jsonError) ("1".toList) 0 0 0 [] []
      (by decide) (by decide)).1,
   (unknown_tool_dispatch ("bogus_tool".toList) {} ClientOutcome.initError
      (fun _ => Parsed.jsonError) ("1".toList) 0 0 0 [] []
      (by decide) (by decide)).2.2⟩

/-- C6 (code bug): hasattr('properties') on the dict-typed inputSchema is
always false, so the translation gives every tool empty parameters — in
particular it drops create_note's required list ["title","content"] and the
"string" item type of the two array parameters, contradicting the
lossless-transform contract. -/
theorem tools_to_ollama_format_drops_schema :
    (tools_to_ollama_format note_server_tools).map OllamaFunction.parameters
      = List.replicate 6 OllamaParameters.empty ∧
    (note_server_tools.map fun t => hasattrProperties t.inputSchema)
      = List.replicate 6 false ∧
    (note_server_tools.map fun t => schemaRequired t.inputSchema)
      = [["title".toList, "content".toList], ["query".toList], [],
         ["note_id".toList], ["note_id".toList], ["note_id".toList]] ∧
    ((note_server_tools.map fun t => schemaProperties t.inputSchema).map
        fun props => props.filterMap fun p => p.2.items)
      = [["string".toList], [], [], [], ["string".toList], []] :=
  ⟨rfl, rfl, rfl, rfl⟩

/-- C7 (code bug): enumerating a store that holds a corrupt record makes
note_server's list_all_notes raise NameError (sys is referenced but never
imported), aborting enumeration instead of warning and continuing; the
identical loop in simple_note_server (which imports sys) skips the record
with one warning and returns the valid remainder, as does the bridge's
loop, silently. -/
theorem corrupt_record_aborts_enumeration :
    list_all_notes [StoredFile.corrupt, StoredFile.valid sampleNote]
      = Except.error (nameErrMsg "sys".toList) ∧
    list_all_notes [StoredFile.valid sampleNote, StoredFile.corrupt]
      = Except.error (nameErrMsg "sys".toList) ∧
    list_all_notes_simple [StoredFile.corrupt, StoredFile.valid sampleNote]
      = ([sampleNote], 1) ∧
    bridge_read_notes [StoredFile.corrupt, StoredFile.valid sampleNote]
      = [sampleNote] :=
  ⟨rfl, rfl, rfl, rfl⟩

end SmartNotes
